import Mathlib

/-!
Shallow embedding of the request-handling core of the AuraByShenoi backend
(`fastapi-backend/main.py`): the pydantic validation constraints, the
newsletter-subscription and contact-submission handlers with their storage
interactions, the contact-number sequence generator, the painting listing
and the health check.  Storage is modelled as explicit state (lists of
documents) with optional fault injection standing for the exceptions the
database driver may raise; timestamps (`datetime.utcnow`) are elided since
no verified property mentions their values.
-/

namespace AuraByShenoi

/-- Python's `str.zfill(width)`: pad on the left with `'0'` up to `width`;
a string already at least `width` long is returned unchanged. -/
def zfill (s : String) (width : Nat) : String :=
  if width ≤ s.length then s
  else ⟨List.replicate (width - s.length) '0'⟩ ++ s

/-- Python's `str.strip()` with no argument: remove whitespace from both
ends of the string. -/
def py_strip (s : String) : String :=
  ⟨(((s.data.dropWhile Char.isWhitespace).reverse.dropWhile Char.isWhitespace).reverse)⟩

/-- Pydantic `Field(min_length, max_length)` on a string field: the check is
on the raw (untrimmed) length of the value. -/
def field_len_ok (minLen maxLen : Nat) (s : String) : Bool :=
  minLen ≤ s.length && s.length ≤ maxLen

/-- The `ContactSubmission` pydantic model
(`name`, `email`, `phone?`, `message`, `artworkReference?`). -/
structure ContactSubmission where
  name : String
  email : String
  phone : Option String := none
  message : String
  artworkReference : Option String := none
deriving DecidableEq, Inhabited

/-- The length constraints pydantic enforces on `ContactSubmission`:
`name` via `Field(..., min_length=2, max_length=100)` and
`message` via `Field(..., min_length=10, max_length=1000)`.
(Email-format validation by `EmailStr` is orthogonal and not modelled.) -/
def contact_len_valid (c : ContactSubmission) : Bool :=
  field_len_ok 2 100 c.name && field_len_ok 10 1000 c.message

/-- The `NewsletterSubscription` pydantic model; `source` defaults to
`"homepage"`. -/
structure NewsletterSubscription where
  email : String
  source : String := "homepage"
deriving DecidableEq, Inhabited

/-- A stored newsletter document (timestamp fields elided). -/
structure NewsletterDoc where
  email : String
  source : String
  status : String
deriving DecidableEq, Inhabited

/-- A stored contact document (timestamp fields elided). -/
structure ContactDoc where
  contactNumber : String
  name : String
  email : String
  phone : Option String
  message : String
  artworkReference : Option String
  status : String
deriving DecidableEq, Inhabited

/-- The newsletter collection together with fault injection for the two
storage operations the handler performs (`find_one`, `insert_one`);
a `some e` fault stands for the driver raising an exception with message
`e`. -/
structure NewsStore where
  newsletters : List NewsletterDoc
  findFail : Option String := none
  insertFail : Option String := none
deriving DecidableEq, Inhabited

/-- The contact collection together with fault injection for
`count_documents` and `insert_one`. -/
structure ContactStore where
  contacts : List ContactDoc
  countFail : Option String := none
  insertFail : Option String := none
deriving DecidableEq, Inhabited

/-- An exception escaping a handler's `try` body: either an
`HTTPException(status_code, detail)` or a generic exception with message. -/
inductive BodyErr where
  | http (statusCode : Nat) (detail : String)
  | exc (msg : String)
deriving DecidableEq

/-- An HTTP error response: status code and detail string. -/
structure HErr where
  statusCode : Nat
  detail : String
deriving DecidableEq, Inhabited

/-- The `try` body of `subscribe_newsletter`: look up the lower-cased email
in the newsletter collection; on a hit raise `HTTPException(409, ...)`;
otherwise insert the document (email lower-cased, status `"active"`) and
return the response data's email.  Returns the store as left by the body. -/
def subscribe_body (st : NewsStore) (sub : NewsletterSubscription) :
    NewsStore × Except BodyErr String :=
  match st.findFail with
  | some e => (st, .error (.exc e))
  | none =>
    match st.newsletters.find? (fun d => d.email == sub.email.toLower) with
    | some _ =>
      (st, .error (.http 409 "This email is already subscribed to our newsletter"))
    | none =>
      let newsletter_doc : NewsletterDoc :=
        { email := sub.email.toLower, source := sub.source, status := "active" }
      match st.insertFail with
      | some e => (st, .error (.exc e))
      | none =>
        ({ st with newsletters := st.newsletters ++ [newsletter_doc] },
         .ok sub.email.toLower)

/-- The `POST /api/newsletter/subscribe` handler: runs the body, re-raises
an `HTTPException` unchanged, and wraps any other exception into an
`HTTPException(500, "Failed to subscribe to newsletter: " + msg)`. -/
def subscribe_newsletter (st : NewsStore) (sub : NewsletterSubscription) :
    NewsStore × Except HErr String :=
  match subscribe_body st sub with
  | (st', .ok r) => (st', .ok r)
  | (st', .error (.http s d)) => (st', .error ⟨s, d⟩)
  | (st', .error (.exc e)) =>
    (st', .error ⟨500, "Failed to subscribe to newsletter: " ++ e⟩)

/-- The `try` body of `submit_contact`: count the contact documents, form
`contact_number = "CNT" + str(count + 1).zfill(6)`, build the document
(name/message stripped, email lower-cased, empty phone collapsing to `None`
by Python truthiness) and insert it.  Returns the contact number. -/
def submit_body (st : ContactStore) (c : ContactSubmission) :
    ContactStore × Except String String :=
  match st.countFail with
  | some e => (st, .error e)
  | none =>
    let count := st.contacts.length
    let contact_number := "CNT" ++ zfill (Nat.repr (count + 1)) 6
    let contact_doc : ContactDoc :=
      { contactNumber := contact_number
        name := py_strip c.name
        email := c.email.toLower
        phone := match c.phone with
                 | some p => if p = "" then none else some (py_strip p)
                 | none => none
        message := py_strip c.message
        artworkReference := c.artworkReference
        status := "new" }
    match st.insertFail with
    | some e => (st, .error e)
    | none =>
      ({ st with contacts := st.contacts ++ [contact_doc] }, .ok contact_number)

/-- The `POST /api/contact` handler: runs the body and wraps ANY exception
into `HTTPException(500, "Failed to submit contact form: " + msg)`
(there is no `except HTTPException: raise` clause here). -/
def submit_contact (st : ContactStore) (c : ContactSubmission) :
    ContactStore × Except HErr String :=
  match submit_body st c with
  | (st', .ok n) => (st', .ok n)
  | (st', .error e) =>
    (st', .error ⟨500, "Failed to submit contact form: " ++ e⟩)

/-- A painting document as stored: an identity field plus a `featured`
boolean (other fields are irrelevant to the verified properties). -/
structure Painting where
  id : Nat
  featured : Bool
deriving DecidableEq, Inhabited

/-- A painting document as returned by the handler: `_id` converted to a
string. -/
structure PaintingOut where
  id : String
  featured : Bool
deriving DecidableEq, Inhabited

/-- The transport shaping `painting["_id"] = str(painting["_id"])`. -/
def paintingOut (p : Painting) : PaintingOut :=
  { id := Nat.repr p.id, featured := p.featured }

/-- The Mongo query built by `get_paintings`: `{}` grows a
`{"featured": featured}` clause only when the query parameter is present. -/
def painting_matches (featured : Option Bool) (p : Painting) : Bool :=
  match featured with
  | none => true
  | some b => p.featured == b

/-- The length handed to `cursor.to_list(length=limit or 100)`: by Python
truthiness `limit or 100` is `100` when `limit` is `None` OR `0`. -/
def to_list_length (limit : Option Int) : Int :=
  match limit with
  | some l => if l ≠ 0 then l else 100
  | none => 100

/-- The `GET /api/paintings` handler over a given collection state:
filter by the optional `featured` equality, apply `cursor.limit(limit)` only
when `limit` is truthy, materialise via `to_list(length=limit or 100)`
(motor raises `ValueError` on a negative length, which the catch-all turns
into a 500), and stringify each `_id`. -/
def get_paintings (paintings : List Painting) (featured : Option Bool)
    (limit : Option Int) : Except HErr (List PaintingOut) :=
  let found := paintings.filter (painting_matches featured)
  let len := to_list_length limit
  if len < 0 then
    .error ⟨500, "Failed to fetch paintings: length must be non-negative"⟩
  else
    .ok ((found.take len.toNat).map paintingOut)

/-- The `GET /health` handler: probe the database (`ping`); on success the
payload says healthy/connected, on any exception the payload says
unhealthy/disconnected and carries the exception message.  The return type
is `Except` to make "never raises to the transport layer" a statement
rather than a typing accident. -/
structure HealthPayload where
  status : String
  database : String
  error : Option String
deriving DecidableEq, Inhabited

/-- The `GET /health` handler. -/
def health_check (ping : Except String Unit) : Except HErr HealthPayload :=
  match ping with
  | .ok _ => .ok { status := "healthy", database := "connected", error := none }
  | .error e =>
    .ok { status := "unhealthy", database := "disconnected", error := some e }

/-- The shape required by the spec's regular expression `CNT\d\x7b6\x7d`:
nine characters, the first three being `CNT`, the last six decimal digits. -/
def isContactNumberFormat (s : String) : Bool :=
  s.length == 9 && s.data.take 3 == ['C', 'N', 'T'] &&
    (s.data.drop 3).all Char.isDigit

/-- The sequence-generator formula in isolation:
`"CNT" + str(n).zfill(6)`. -/
def contact_number_for (n : Nat) : String :=
  "CNT" ++ zfill (Nat.repr n) 6

/-- Sequential (non-concurrent) contact submissions: run `submit_contact`
once per submission, threading the store. -/
def submit_seq (st : ContactStore) : List ContactSubmission → ContactStore × List (Except HErr String)
  | [] => (st, [])
  | c :: cs =>
    let step := submit_contact st c
    let rest := submit_seq step.1 cs
    (rest.1, step.2 :: rest.2)

end AuraByShenoi

namespace AuraByShenoi

/-! Helper lemmas about decimal representations and `zfill`. -/

lemma string_length_eq_data (s : String) : s.length = s.data.length := rfl

lemma digitChar_isDigit : ∀ m, m < 10 → (Nat.digitChar m).isDigit = true := by
  decide

lemma toDigitsCore_all_digit :
    ∀ (f n : Nat) (l : List Char), (∀ c ∈ l, c.isDigit = true) →
      ∀ c ∈ Nat.toDigitsCore 10 f n l, c.isDigit = true := by
  intro f
  induction f with
  | zero => intro n l hl; simpa [Nat.toDigitsCore] using hl
  | succ f ih =>
    intro n l hl c hc
    have hmem : ∀ c ∈ Nat.digitChar (n % 10) :: l, c.isDigit = true := by
      intro c hc
      rcases List.mem_cons.mp hc with h | h
      · subst h; exact digitChar_isDigit _ (Nat.mod_lt _ (by decide))
      · exact hl _ h
    by_cases h0 : n / 10 = 0
    · simp only [Nat.toDigitsCore, h0, if_true] at hc
      exact hmem _ hc
    · simp only [Nat.toDigitsCore, h0, if_false] at hc
      exact ih (n / 10) _ hmem c hc

lemma toDigitsCore_ne_nil :
    ∀ (f n : Nat) (l : List Char), Nat.toDigitsCore 10 (f + 1) n l ≠ [] := by
  intro f
  induction f with
  | zero =>
    intro n l
    by_cases h0 : n / 10 = 0 <;> simp [Nat.toDigitsCore, h0]
  | succ f ih =>
    intro n l
    by_cases h0 : n / 10 = 0
    · simp [Nat.toDigitsCore, h0]
    · simpa [Nat.toDigitsCore, h0] using ih (n / 10) (Nat.digitChar (n % 10) :: l)

lemma repr_data_all_digit (n : Nat) : ∀ c ∈ (Nat.repr n).data, c.isDigit = true := by
  intro c hc
  have : (Nat.repr n).data = Nat.toDigitsCore 10 (n + 1) n [] := rfl
  rw [this] at hc
  exact toDigitsCore_all_digit (n + 1) n [] (by simp) c hc

lemma repr_length_pos (n : Nat) : 1 ≤ (Nat.repr n).length := by
  have hd : (Nat.repr n).data = Nat.toDigitsCore 10 (n + 1) n [] := rfl
  have hne : (Nat.repr n).data ≠ [] := by
    rw [hd]; exact toDigitsCore_ne_nil n n []
  have hp : 0 < (Nat.repr n).data.length := List.length_pos.mpr hne
  rw [string_length_eq_data]
  omega

lemma zfill_data (s : String) (w : Nat) (h : s.length ≤ w) :
    (zfill s w).data = List.replicate (w - s.length) '0' ++ s.data := by
  unfold zfill
  by_cases hw : w ≤ s.length
  · have : s.length = w := Nat.le_antisymm h hw
    simp [hw, this]
  · simp [hw]

lemma zfill_length (s : String) (w : Nat) (h : s.length ≤ w) :
    (zfill s w).length = w := by
  have := zfill_data s w h
  have hlen : (zfill s w).data.length = (w - s.length) + s.length := by
    rw [this]; simp
  rw [string_length_eq_data, hlen]
  omega

lemma zfill_repr_all_digit (n w : Nat) (h : (Nat.repr n).length ≤ w) :
    ∀ c ∈ (zfill (Nat.repr n) w).data, c.isDigit = true := by
  intro c hc
  rw [zfill_data _ _ h] at hc
  rcases List.mem_append.mp hc with h' | h'
  · have : c = '0' := List.eq_of_mem_replicate h'
    subst this; decide
  · exact repr_data_all_digit n c h'

/-- For `1 ≤ n ≤ 999999` the generated number has the `CNT` + six digits
shape. -/
lemma contact_number_format_ok (n : Nat) (h : n ≤ 999999) :
    isContactNumberFormat (contact_number_for n) = true := by
  have hlen : (Nat.repr n).length ≤ 6 :=
    Nat.repr_length n 6 (by decide) (by omega)
  have hz : (zfill (Nat.repr n) 6).length = 6 := zfill_length _ _ hlen
  have hdata : (contact_number_for n).data =
      'C' :: 'N' :: 'T' :: (zfill (Nat.repr n) 6).data := by
    show ("CNT" ++ zfill (Nat.repr n) 6).data = _
    rw [String.data_append]
    rfl
  have hzlen : (zfill (Nat.repr n) 6).data.length = 6 := by
    rw [← string_length_eq_data]; exact hz
  have hlen9 : (contact_number_for n).length = 9 := by
    rw [string_length_eq_data, hdata]
    simp [hzlen]
  have hall : ∀ c ∈ (zfill (Nat.repr n) 6).data, c.isDigit = true :=
    zfill_repr_all_digit n 6 hlen
  unfold isContactNumberFormat
  rw [hdata, hlen9]
  simp [List.all_eq_true]
  exact hall

/-- On a store whose operations succeed and that does not yet hold the
lower-cased email, the subscribe body inserts exactly one document and
returns the lower-cased email. -/
lemma subscribe_body_fresh (st : NewsStore) (sub : NewsletterSubscription)
    (hfind : st.findFail = none) (hins : st.insertFail = none)
    (hfresh : ∀ d ∈ st.newsletters, d.email ≠ sub.email.toLower) :
    subscribe_body st sub =
      ({ st with newsletters := st.newsletters ++
          [⟨sub.email.toLower, sub.source, "active"⟩] },
       .ok sub.email.toLower) := by
  have hnone : st.newsletters.find? (fun d => d.email == sub.email.toLower) = none := by
    apply List.find?_eq_none.mpr
    intro d hd
    simp only [beq_iff_eq]
    exact hfresh d hd
  unfold subscribe_body
  rw [hfind, hnone, hins]

/-- On a store whose operations succeed and that already holds a document
with the lower-cased email, the subscribe body raises
`HTTPException(409, ...)` and leaves the store unchanged. -/
lemma subscribe_body_duplicate (st : NewsStore) (sub : NewsletterSubscription)
    (hfind : st.findFail = none)
    (hdup : ∃ d, st.newsletters.find?
      (fun d => d.email == sub.email.toLower) = some d) :
    subscribe_body st sub =
      (st, .error (.http 409 "This email is already subscribed to our newsletter")) := by
  obtain ⟨d, hd⟩ := hdup
  unfold subscribe_body
  rw [hfind, hd]

/-- A successful painting listing is the filtered collection truncated to
the `to_list` length, with identities stringified. -/
lemma get_paintings_ok_eq (ps : List Painting) (featured : Option Bool)
    (limit : Option Int) (out : List PaintingOut)
    (h : get_paintings ps featured limit = .ok out) :
    out = ((ps.filter (painting_matches featured)).take
      (to_list_length limit).toNat).map paintingOut := by
  have hred : get_paintings ps featured limit =
      (if to_list_length limit < 0 then
        .error ⟨500, "Failed to fetch paintings: length must be non-negative"⟩
      else
        .ok (((ps.filter (painting_matches featured)).take
          (to_list_length limit).toNat).map paintingOut)) := rfl
  rw [hred] at h
  by_cases hneg : to_list_length limit < 0
  · rw [if_pos hneg] at h
    cases h
  · rw [if_neg hneg, Except.ok.injEq] at h
    exact h.symm

/-- One successful contact submission appends exactly one document and
returns the number derived from the new count. -/
lemma submit_contact_ok_step (st : ContactStore) (c : ContactSubmission)
    (hcount : st.countFail = none) (hins : st.insertFail = none) :
    ∃ doc, submit_contact st c =
      ({ st with contacts := st.contacts ++ [doc] },
       .ok (contact_number_for (st.contacts.length + 1))) := by
  refine ⟨⟨contact_number_for (st.contacts.length + 1), py_strip c.name,
    c.email.toLower,
    (match c.phone with
     | some p => if p = "" then none else some (py_strip p)
     | none => none),
    py_strip c.message, c.artworkReference, "new"⟩, ?_⟩
  unfold submit_contact submit_body
  rw [hcount, hins]
  rfl

/-- Sequential submissions on fault-free storage produce the numbers
`C+1, ..., C+N` and grow the collection by one document each. -/
lemma submit_seq_spec :
    ∀ (cs : List ContactSubmission) (st : ContactStore),
      st.countFail = none → st.insertFail = none →
      (submit_seq st cs).2 =
        (List.range cs.length).map
          (fun i => Except.ok (contact_number_for (st.contacts.length + i + 1))) ∧
      (submit_seq st cs).1.contacts.length = st.contacts.length + cs.length := by
  intro cs
  induction cs with
  | nil => intro st _ _; simp [submit_seq]
  | cons c cs ih =>
    intro st hcount hins
    obtain ⟨doc, hstep⟩ := submit_contact_ok_step st c hcount hins
    have ih' := ih { st with contacts := st.contacts ++ [doc] } hcount hins
    have hlen : ({ st with contacts := st.contacts ++ [doc] } :
        ContactStore).contacts.length = st.contacts.length + 1 := by simp
    rw [hlen] at ih'
    have hseq : submit_seq st (c :: cs) =
        ((submit_seq (submit_contact st c).1 cs).1,
         (submit_contact st c).2 :: (submit_seq (submit_contact st c).1 cs).2) := rfl
    have hmap : (List.range (cs.length + 1)).map
        (fun i => Except.ok (ε := HErr) (contact_number_for (st.contacts.length + i + 1))) =
        Except.ok (contact_number_for (st.contacts.length + 1)) ::
          (List.range cs.length).map
            (fun i => Except.ok (contact_number_for (st.contacts.length + 1 + i + 1))) := by
      rw [List.range_succ_eq_map, List.map_cons, List.map_map]
      simp only [Nat.add_zero, List.cons.injEq, true_and, List.map_inj_left,
        Function.comp_apply, Nat.succ_eq_add_one]
      intro i _
      have harg : st.contacts.length + (i + 1) + 1 =
          st.contacts.length + 1 + i + 1 := by omega
      rw [harg]
    rw [hseq, hstep]
    dsimp only
    constructor
    · rw [ih'.1]
      simp only [List.length_cons]
      rw [hmap]
    · rw [ih'.2]
      simp only [List.length_cons]
      omega

/-! The claims. -/

/-- C1 (counterexample): the claim says validation accepts a name iff its
TRIMMED length lies in `[2,100]`, but pydantic's `Field(min_length=2,
max_length=100)` checks the raw length: the name `"a "` (raw length 2,
trimmed length 1) is accepted, refuting the claim. -/
theorem C1_trimmed_length_counterexample :
    ¬ (∀ name : String, field_len_ok 2 100 name = true ↔
        2 ≤ (py_strip name).length ∧ (py_strip name).length ≤ 100) := by
  intro h
  have h2 := (h "a ").mp (by decide)
  have h1 : (py_strip "a ").length = 1 := by decide
  omega

/-- C1 (amended): validation accepts the name iff its RAW (untrimmed)
length lies in `[2,100]` and the message iff its raw length lies in
`[10,1000]`; in particular a name of length 1 or a message of length 9 is
rejected, and lengths 2 and 10 are accepted. -/
theorem C1_length_validation :
    (∀ name : String, field_len_ok 2 100 name = true ↔
        2 ≤ name.length ∧ name.length ≤ 100) ∧
    (∀ msg : String, field_len_ok 10 1000 msg = true ↔
        10 ≤ msg.length ∧ msg.length ≤ 1000) ∧
    field_len_ok 2 100 "a" = false ∧ field_len_ok 2 100 "ab" = true ∧
    field_len_ok 10 1000 "abcdefghi" = false ∧
    field_len_ok 10 1000 "abcdefghij" = true := by
  refine ⟨fun name => ?_, fun msg => ?_, by decide, by decide, by decide, by decide⟩ <;>
    simp [field_len_ok]

/-- C1 witness: the iff applied at the boundary input of length 2. -/
theorem C1_length_validation_witness : field_len_ok 2 100 "ab" = true :=
  (C1_length_validation.1 "ab").mpr (by decide)

/-- C5: `GET /health` never raises to the transport layer: for every probe
outcome the handler returns `.ok`; a successful probe yields
healthy/connected with no error field, a failing probe is caught and
yields unhealthy/disconnected with the exception message in the payload. -/
theorem C5_health_never_raises :
    (∀ ping : Except String Unit, ∃ p, health_check ping = .ok p) ∧
    health_check (.ok ()) = .ok ⟨"healthy", "connected", none⟩ ∧
    (∀ e : String, health_check (.error e) =
      .ok ⟨"unhealthy", "disconnected", some e⟩) := by
  refine ⟨fun ping => ?_, rfl, fun e => rfl⟩
  cases ping <;> exact ⟨_, rfl⟩

/-- C10: a `limit` of `0` is falsy in Python, so `GET /api/paintings` with
`limit=0` behaves exactly as if no limit were given, and at most 100
documents come back. -/
theorem C10_limit_zero_treated_as_absent (ps : List Painting) (featured : Option Bool) :
    get_paintings ps featured (some 0) = get_paintings ps featured none ∧
    (∀ out, get_paintings ps featured (some 0) = .ok out → out.length ≤ 100) := by
  constructor
  · rfl
  · intro out h
    have hred : get_paintings ps featured (some 0) =
        .ok (((ps.filter (painting_matches featured)).take 100).map paintingOut) := rfl
    rw [hred, Except.ok.injEq] at h
    subst h
    simp only [List.length_map]
    exact List.length_take_le 100 _

/-- C10 witness: a one-painting store with `limit=0` returns one document,
within the 100 cap. -/
theorem C10_limit_zero_witness :
    [paintingOut ⟨1, true⟩].length ≤ 100 :=
  (C10_limit_zero_treated_as_absent [⟨1, true⟩] none).2
    [paintingOut ⟨1, true⟩] rfl

/-- C3: when the storage operations succeed, the contact number returned by
`POST /api/contact` is `"CNT"` followed by the pre-insert document count
plus one, zero-padded to width 6, and (whenever the pre-existing count is
below 999999) it matches `CNT` followed by exactly six digits. -/
theorem C3_contact_number_format (st : ContactStore) (c : ContactSubmission)
    (hcount : st.countFail = none) (hins : st.insertFail = none)
    (hbound : st.contacts.length < 999999) :
    (submit_contact st c).2 = .ok (contact_number_for (st.contacts.length + 1)) ∧
    isContactNumberFormat (contact_number_for (st.contacts.length + 1)) = true := by
  constructor
  · simp [submit_contact, submit_body, hcount, hins, contact_number_for]
  · exact contact_number_format_ok _ (by omega)

/-- C3 witness: submitting to an empty store returns `CNT000001`, which has
the required shape. -/
theorem C3_contact_number_format_witness :
    (submit_contact ⟨[], none, none⟩
        ⟨"Jo", "jo@example.com", none, "hello there!", none⟩).2 =
      .ok (contact_number_for 1) ∧
    isContactNumberFormat (contact_number_for 1) = true :=
  C3_contact_number_format ⟨[], none, none⟩
    ⟨"Jo", "jo@example.com", none, "hello there!", none⟩ rfl rfl (by decide)

/-- C4: every exception raised during the body of the `POST /api/contact`
handler is caught and reported as HTTP 500 whose detail interpolates the
underlying message; every error response of this handler has status 500
and that detail shape, so no exception kind receives a more specific
status. -/
theorem C4_contact_catch_all (st : ContactStore) (c : ContactSubmission) :
    (∀ st' e, submit_body st c = (st', Except.error e) →
      submit_contact st c =
        (st', Except.error ⟨500, "Failed to submit contact form: " ++ e⟩)) ∧
    (∀ r, (submit_contact st c).2 = Except.error r →
      r.statusCode = 500 ∧
      ∃ e, r.detail = "Failed to submit contact form: " ++ e) := by
  constructor
  · intro st' e h
    simp [submit_contact, h]
  · intro r h
    unfold submit_contact at h
    rcases hb : submit_body st c with ⟨st', res⟩
    rw [hb] at h
    cases res with
    | ok n => simp at h
    | error e =>
      simp at h
      subst h
      exact ⟨rfl, e, rfl⟩

/-- C4 witness: a failing `count_documents` (message `"boom"`) surfaces as
a 500 with the interpolated message. -/
theorem C4_contact_catch_all_witness :
    submit_contact ⟨[], some "boom", none⟩
        ⟨"Jo", "jo@example.com", none, "hello there!", none⟩ =
      (⟨[], some "boom", none⟩,
       Except.error ⟨500, "Failed to submit contact form: " ++ "boom"⟩) :=
  (C4_contact_catch_all ⟨[], some "boom", none⟩
      ⟨"Jo", "jo@example.com", none, "hello there!", none⟩).1
    ⟨[], some "boom", none⟩ "boom" rfl

/-- C2: with working storage, subscribing an email not yet present succeeds,
and immediately subscribing the same email again yields a 409 conflict —
the duplicate check matches the stored lower-cased email exactly — and the
second call inserts no new document (the store is left unchanged). -/
theorem C2_subscribe_twice (st : NewsStore) (sub : NewsletterSubscription)
    (hfind : st.findFail = none) (hins : st.insertFail = none)
    (hfresh : ∀ d ∈ st.newsletters, d.email ≠ sub.email.toLower) :
    (subscribe_newsletter st sub).2 = .ok sub.email.toLower ∧
    (subscribe_newsletter (subscribe_newsletter st sub).1 sub).2 =
      .error ⟨409, "This email is already subscribed to our newsletter"⟩ ∧
    (subscribe_newsletter (subscribe_newsletter st sub).1 sub).1 =
      (subscribe_newsletter st sub).1 := by
  have hbody := subscribe_body_fresh st sub hfind hins hfresh
  have hfirst : subscribe_newsletter st sub =
      ({ st with newsletters := st.newsletters ++
          [⟨sub.email.toLower, sub.source, "active"⟩] },
       .ok sub.email.toLower) := by
    unfold subscribe_newsletter
    rw [hbody]
  have hdup : ({ st with newsletters := st.newsletters ++
      [⟨sub.email.toLower, sub.source, "active"⟩] } : NewsStore).newsletters.find?
        (fun d => d.email == sub.email.toLower) =
      some ⟨sub.email.toLower, sub.source, "active"⟩ := by
    simp only [List.find?_append]
    have h1 : st.newsletters.find? (fun d => d.email == sub.email.toLower) = none := by
      apply List.find?_eq_none.mpr
      intro d hd
      simp only [beq_iff_eq]
      exact hfresh d hd
    rw [h1]
    simp
  have hsecond := subscribe_body_duplicate
      ({ st with newsletters := st.newsletters ++
        [⟨sub.email.toLower, sub.source, "active"⟩] }) sub hfind
      ⟨_, hdup⟩
  refine ⟨by rw [hfirst], ?_, ?_⟩ <;>
    rw [hfirst] <;>
    unfold subscribe_newsletter <;>
    rw [hsecond]

/-- C2 witness: the two sequential calls on an initially empty store. -/
theorem C2_subscribe_twice_witness :
    (subscribe_newsletter ⟨[], none, none⟩ ⟨"Ada@Example.com", "homepage"⟩).2 =
      .ok ("Ada@Example.com".toLower) ∧
    (subscribe_newsletter
        (subscribe_newsletter ⟨[], none, none⟩ ⟨"Ada@Example.com", "homepage"⟩).1
        ⟨"Ada@Example.com", "homepage"⟩).2 =
      .error ⟨409, "This email is already subscribed to our newsletter"⟩ ∧
    (subscribe_newsletter
        (subscribe_newsletter ⟨[], none, none⟩ ⟨"Ada@Example.com", "homepage"⟩).1
        ⟨"Ada@Example.com", "homepage"⟩).1 =
      (subscribe_newsletter ⟨[], none, none⟩ ⟨"Ada@Example.com", "homepage"⟩).1 :=
  C2_subscribe_twice ⟨[], none, none⟩ ⟨"Ada@Example.com", "homepage"⟩ rfl rfl
    (by simp)

/-- C8: with working storage, subscribing a fresh email succeeds, the
response data carries the lower-cased email, the inserted document stores
that lower-cased email with status `"active"` and the given source, and a
subscription built without a source defaults it to `"homepage"`. -/
theorem C8_fresh_subscribe (st : NewsStore) (sub : NewsletterSubscription)
    (hfind : st.findFail = none) (hins : st.insertFail = none)
    (hfresh : ∀ d ∈ st.newsletters, d.email ≠ sub.email.toLower) :
    (subscribe_newsletter st sub).2 = .ok sub.email.toLower ∧
    (subscribe_newsletter st sub).1.newsletters =
      st.newsletters ++ [⟨sub.email.toLower, sub.source, "active"⟩] ∧
    (∀ e : String, ({ email := e } : NewsletterSubscription).source = "homepage") := by
  have hbody := subscribe_body_fresh st sub hfind hins hfresh
  have hfirst : subscribe_newsletter st sub =
      ({ st with newsletters := st.newsletters ++
          [⟨sub.email.toLower, sub.source, "active"⟩] },
       .ok sub.email.toLower) := by
    unfold subscribe_newsletter
    rw [hbody]
  exact ⟨by rw [hfirst], by rw [hfirst], fun e => rfl⟩

/-- C8 witness: subscribing `Eve@Example.COM` on an empty store stores and
returns `eve@example.com` with status active. -/
theorem C8_fresh_subscribe_witness :
    (subscribe_newsletter ⟨[], none, none⟩ ⟨"Eve@Example.COM", "homepage"⟩).2 =
      .ok ("Eve@Example.COM".toLower) ∧
    (subscribe_newsletter ⟨[], none, none⟩ ⟨"Eve@Example.COM", "homepage"⟩).1.newsletters =
      [] ++ [⟨"Eve@Example.COM".toLower, "homepage", "active"⟩] ∧
    (∀ e : String, ({ email := e } : NewsletterSubscription).source = "homepage") :=
  C8_fresh_subscribe ⟨[], none, none⟩ ⟨"Eve@Example.COM", "homepage"⟩ rfl rfl
    (by simp)

/-- C6 (counterexample): the claim caps the result at `limit` for EVERY
given limit, but `limit=0` is falsy in Python, so the store's documents
come back anyway: a one-painting store with `limit=0` returns one
document, not at most zero. -/
theorem C6_limit_cap_counterexample :
    ¬ (∀ (ps : List Painting) (featured : Option Bool) (l : Int)
        (out : List PaintingOut),
          get_paintings ps featured (some l) = .ok out →
            (out.length : Int) ≤ l) := by
  intro h
  have h1 := h [⟨1, true⟩] none 0 [paintingOut ⟨1, true⟩] rfl
  simp at h1

/-- C6 (amended): the returned data holds at most `limit` documents when a
POSITIVE limit is given, and at most 100 documents when the limit is
absent (a zero limit also falls back to the 100 cap). -/
theorem C6_limit_cap (ps : List Painting) (featured : Option Bool)
    (limit : Option Int) (out : List PaintingOut)
    (h : get_paintings ps featured limit = .ok out) :
    (∀ l : Int, limit = some l → 0 < l → (out.length : Int) ≤ l) ∧
    (limit = none ∨ limit = some 0 → out.length ≤ 100) := by
  have heq := get_paintings_ok_eq ps featured limit out h
  have hlen : out.length ≤ (to_list_length limit).toNat := by
    rw [heq]
    simp only [List.length_map]
    exact List.length_take_le _ _
  constructor
  · intro l hl hpos
    subst hl
    have hne : l ≠ 0 := by omega
    have : to_list_length (some l) = l := by
      simp [to_list_length, hne]
    rw [this] at hlen
    omega
  · rintro (hl | hl) <;> subst hl <;>
      simpa [to_list_length] using hlen

/-- C6 witness: `limit=1` on a two-painting store returns one document. -/
theorem C6_limit_cap_witness :
    (([paintingOut ⟨1, true⟩] : List PaintingOut).length : Int) ≤ 1 :=
  (C6_limit_cap [⟨1, true⟩, ⟨2, false⟩] none (some 1)
      [paintingOut ⟨1, true⟩] rfl).1 1 rfl (by decide)

/-- C7: when the `featured` query parameter is present every returned
document has that `featured` value; when it is absent no filter is applied
and the result is just the (truncated, stringified) collection. -/
theorem C7_featured_filter :
    (∀ (ps : List Painting) (b : Bool) (limit : Option Int)
        (out : List PaintingOut),
        get_paintings ps (some b) limit = .ok out →
          ∀ p ∈ out, p.featured = b) ∧
    (∀ (ps : List Painting) (limit : Option Int) (out : List PaintingOut),
        get_paintings ps none limit = .ok out →
          out = (ps.take (to_list_length limit).toNat).map paintingOut) := by
  constructor
  · intro ps b limit out h p hp
    have heq := get_paintings_ok_eq ps (some b) limit out h
    subst heq
    obtain ⟨q, hq, rfl⟩ := List.mem_map.mp hp
    have hq' := List.mem_of_mem_take hq
    have hmatch := (List.mem_filter.mp hq').2
    simp only [painting_matches, beq_iff_eq] at hmatch
    exact hmatch
  · intro ps limit out h
    have heq := get_paintings_ok_eq ps none limit out h
    rw [heq]
    have : ps.filter (painting_matches none) = ps :=
      List.filter_eq_self.mpr (fun a _ => rfl)
    rw [this]

/-- C7 witness: `featured=true` on a mixed store returns only featured
documents; the sample returned document is featured. -/
theorem C7_featured_filter_witness :
    (paintingOut ⟨1, true⟩).featured = true :=
  C7_featured_filter.1 [⟨1, true⟩, ⟨2, false⟩] true none
    [paintingOut ⟨1, true⟩] rfl (paintingOut ⟨1, true⟩) (by simp)

/-- C9: with fault-free storage, submitting N contacts sequentially from a
pre-existing count C yields the numbers with suffixes C+1, ..., C+N in
order, and each successful submission inserts exactly one document (the
final count is C+N). -/
theorem C9_sequential_contact_numbers (st : ContactStore)
    (cs : List ContactSubmission)
    (hcount : st.countFail = none) (hins : st.insertFail = none) :
    (submit_seq st cs).2 =
      (List.range cs.length).map
        (fun i => Except.ok (contact_number_for (st.contacts.length + i + 1))) ∧
    (submit_seq st cs).1.contacts.length = st.contacts.length + cs.length :=
  submit_seq_spec cs st hcount hins

/-- C9 witness: two submissions on an empty store yield the numbers for 1
and 2 and leave two documents. -/
theorem C9_sequential_contact_numbers_witness :
    (submit_seq ⟨[], none, none⟩
        [⟨"Jo", "jo@example.com", none, "hello there!", none⟩,
         ⟨"Al", "al@example.com", none, "hello again!", none⟩]).2 =
      (List.range 2).map
        (fun i => Except.ok (contact_number_for (0 + i + 1))) ∧
    (submit_seq ⟨[], none, none⟩
        [⟨"Jo", "jo@example.com", none, "hello there!", none⟩,
         ⟨"Al", "al@example.com", none, "hello again!", none⟩]).1.contacts.length =
      0 + 2 :=
  C9_sequential_contact_numbers ⟨[], none, none⟩
    [⟨"Jo", "jo@example.com", none, "hello there!", none⟩,
     ⟨"Al", "al@example.com", none, "hello again!", none⟩] rfl rfl

end AuraByShenoi
